import Mathlib

/-!
Shallow embedding of `src/api/index.py` (APM demo API).

The module is a stateless metric simulator: each request seeds a
`random.Random` from a coarse time bucket and produces a snapshot record.
We embed it as follows.

* Wall-clock instants are exact rationals (seconds since the Unix epoch),
  matching `datetime.now(timezone.utc).timestamp()`.
* Python floats are modelled by `ℚ` (the spec reads the draws as reals).
* Each simulator body is a pure function of the draws its `random.Random`
  instance makes, listed in source order in a `...Draws` structure; a
  generator `gen : ℤ → ...Draws` maps a seed to those draws, capturing the
  fact that a `random.Random` output stream is a function of its seed.
  `...Draws.Valid` records the ranges `uniform` / `random` / `randint`
  guarantee.
* Fallible code returns `Option`: `random.sample` raises `ValueError` when
  the sample size exceeds the population, modelled by `none`.
-/

namespace APM

/-- Wall-clock instant: seconds since the Unix epoch as an exact rational,
the value of `datetime.now(timezone.utc).timestamp()`. -/
abbrev Instant := ℚ

/-- `iso_now` renders the current instant as an ISO-8601 UTC string.
ISO-8601 rendering with microsecond precision and offset is injective on
instants, so the embedding tracks the instant itself. -/
def iso_now (now : Instant) : Instant := now

/-- `int(x)` in Python truncates toward zero. -/
def int_trunc (q : ℚ) : ℤ := q.num / (q.den : ℤ)

/-- `pick_status` from the source. -/
def pick_status (score : ℚ) : String :=
  if score > 0.85 then "down"
  else if score > 0.55 then "warn"
  else "ok"

/-- `clamp` from the source: `max(lo, min(hi, v))`. -/
def clamp (v lo hi : ℚ) : ℚ := max lo (min hi v)

/-- `stable_seed` from the source: `abs(hash(service_id)) % (2**31 - 1)`.
The built-in string `hash` of Python is salted per process, so it is a
parameter of the embedding. -/
def stable_seed (hash : String → ℤ) (service_id : String) : ℤ :=
  ((hash service_id).natAbs : ℤ) % (2 ^ 31 - 1)

/-! ### Catalogs -/

/-- One entry of `BASE_SERVICES`. -/
structure ServiceDescriptor where
  id : String
  name : String
  type : String
  env : String
  owner : String
  target_latency_ms : ℚ
  target_error_rate : ℚ
deriving DecidableEq

/-- `BASE_SERVICES` from the source (targets inlined). -/
def BASE_SERVICES : List ServiceDescriptor :=
  [ { id := "svc-auth", name := "auth-service", type := "app", env := "prod",
      owner := "identity", target_latency_ms := 220, target_error_rate := 0.8 },
    { id := "svc-orders", name := "orders-api", type := "app", env := "prod",
      owner := "commerce", target_latency_ms := 300, target_error_rate := 1.0 },
    { id := "svc-postgres", name := "postgres-primary", type := "db", env := "prod",
      owner := "platform", target_latency_ms := 80, target_error_rate := 0.2 },
    { id := "svc-redis", name := "redis-cache", type := "cache", env := "prod",
      owner := "platform", target_latency_ms := 25, target_error_rate := 0.1 },
    { id := "svc-gateway", name := "edge-gateway", type := "gateway", env := "prod",
      owner := "network", target_latency_ms := 150, target_error_rate := 0.5 } ]

/-- One entry of `SECURITY_EVENTS`. -/
structure SecurityEvent where
  id : String
  severity : String
  title : String
  detail : String
deriving DecidableEq

/-- `SECURITY_EVENTS` from the source: the fixed 4-event catalog. -/
def SECURITY_EVENTS : List SecurityEvent :=
  [ { id := "evt-1", severity := "high", title := "Suspicious login burst",
      detail := "Multiple failed logins from new ASN" },
    { id := "evt-2", severity := "medium", title := "WAF rule triggered",
      detail := "Possible SQLi pattern blocked" },
    { id := "evt-3", severity := "critical", title := "Privilege escalation attempt",
      detail := "Admin endpoint access anomaly" },
    { id := "evt-4", severity := "info", title := "Key rotation reminder",
      detail := "KMS key rotation due in 7 days" } ]

/-! ### Per-service metrics (`simulate_service_metrics`) -/

/-- Snapshot returned by `simulate_service_metrics`. -/
structure ServiceMetrics where
  ts : Instant
  latency_ms : ℚ
  error_rate : ℚ
  rps : ℚ
  status : String
deriving DecidableEq

/-- Draws `simulate_service_metrics` makes from its generator, in source
order.  The two multipliers are only consumed when the spike branch is
taken. -/
structure ServiceDraws where
  u_latency : ℚ
  u_error : ℚ
  u_rps : ℚ
  r_spike : ℚ
  u_latency_mult : ℚ
  u_error_mult : ℚ

/-- Ranges guaranteed by `uniform` and `random` for the service draws. -/
abbrev ServiceDraws.Valid (d : ServiceDraws) : Prop :=
  (20 ≤ d.u_latency ∧ d.u_latency ≤ 260) ∧
  (0 ≤ d.u_error ∧ d.u_error ≤ 2.5) ∧
  (5 ≤ d.u_rps ∧ d.u_rps ≤ 250) ∧
  (0 ≤ d.r_spike ∧ d.r_spike < 1) ∧
  (2 ≤ d.u_latency_mult ∧ d.u_latency_mult ≤ 4) ∧
  (2 ≤ d.u_error_mult ∧ d.u_error_mult ≤ 6)

/-- Body of `simulate_service_metrics`, as a function of the draws. -/
def serviceMetricsBody (d : ServiceDraws) (now : Instant) : ServiceMetrics :=
  let base_latency := d.u_latency
  let base_error := d.u_error
  let base_rps := d.u_rps
  let base_latency := if d.r_spike < 0.08 then base_latency * d.u_latency_mult else base_latency
  let base_error := if d.r_spike < 0.08 then base_error * d.u_error_mult else base_error
  let latency := clamp base_latency 5 2000
  let error := clamp base_error 0 25
  let rps := clamp base_rps 0.1 2000
  let score := clamp (latency / 900 * 0.6 + error / 10 * 0.4) 0 1.2
  { ts := iso_now now, latency_ms := latency, error_rate := error, rps := rps,
    status := pick_status score }

/-- `simulate_service_metrics`: seeds the generator with
`stable_seed(service_id) + int(now // 5)`. -/
def simulate_service_metrics (gen : ℤ → ServiceDraws) (hash : String → ℤ)
    (service_id : String) (now : Instant) : ServiceMetrics :=
  serviceMetricsBody (gen (stable_seed hash service_id + ⌊now / 5⌋)) now

/-! ### System (`simulate_system`) -/

/-- Snapshot returned by `simulate_system`. -/
structure SystemSnapshot where
  ts : Instant
  cpu_percent : ℚ
  mem_percent : ℚ
  disk_percent : ℚ
  uptime_human : String
  status : String
deriving DecidableEq

/-- Draws `simulate_system` makes, in source order. -/
structure SystemDraws where
  u_cpu : ℚ
  r_cpu_spike : ℚ
  u_mem : ℚ
  u_disk : ℚ
  u_uptime : ℚ

/-- Ranges guaranteed by `uniform` and `random` for the system draws. -/
abbrev SystemDraws.Valid (d : SystemDraws) : Prop :=
  (18 ≤ d.u_cpu ∧ d.u_cpu ≤ 92) ∧
  (0 ≤ d.r_cpu_spike ∧ d.r_cpu_spike < 1) ∧
  (30 ≤ d.u_mem ∧ d.u_mem ≤ 88) ∧
  (40 ≤ d.u_disk ∧ d.u_disk ≤ 93) ∧
  (12 ≤ d.u_uptime ∧ d.u_uptime ≤ 240)

/-- Body of `simulate_system`; the status is assigned sequentially as in
the source (`warn` assignment first, `down` check after). -/
def simulate_systemBody (d : SystemDraws) (now : Instant) : SystemSnapshot :=
  let cpu := clamp (d.u_cpu + if d.r_cpu_spike < 0.12 then 10 else 0) 1 100
  let mem := clamp d.u_mem 1 100
  let disk := clamp d.u_disk 1 100
  let uptime_hours := int_trunc d.u_uptime
  let status := "ok"
  let status := if cpu > 90 ∨ mem > 90 ∨ disk > 92 then "warn" else status
  let status := if cpu > 96 ∨ mem > 96 then "down" else status
  { ts := iso_now now, cpu_percent := cpu, mem_percent := mem, disk_percent := disk,
    uptime_human := toString uptime_hours ++ "h", status := status }

/-- `simulate_system`: seed `int(now // 3)`. -/
def simulate_system (gen : ℤ → SystemDraws) (now : Instant) : SystemSnapshot :=
  simulate_systemBody (gen ⌊now / 3⌋) now

/-! ### App (`simulate_app`) -/

/-- Snapshot returned by `simulate_app`. -/
structure AppSnapshot where
  ts : Instant
  p95_latency_ms : ℚ
  rps : ℚ
  error_rate_percent : ℚ
  version : String
  status : String
deriving DecidableEq

/-- Draws `simulate_app` makes, in source order. -/
structure AppDraws where
  u_p95 : ℚ
  r_p95_spike : ℚ
  u_rps : ℚ
  u_err : ℚ
  r_err_spike : ℚ
  n_minor : ℕ
  n_patch : ℕ

/-- Ranges guaranteed by `uniform`, `random` and `randint` for the app
draws. -/
abbrev AppDraws.Valid (d : AppDraws) : Prop :=
  (90 ≤ d.u_p95 ∧ d.u_p95 ≤ 850) ∧
  (0 ≤ d.r_p95_spike ∧ d.r_p95_spike < 1) ∧
  (20 ≤ d.u_rps ∧ d.u_rps ≤ 520) ∧
  (0.05 ≤ d.u_err ∧ d.u_err ≤ 3.5) ∧
  (0 ≤ d.r_err_spike ∧ d.r_err_spike < 1) ∧
  (2 ≤ d.n_minor ∧ d.n_minor ≤ 9) ∧
  d.n_patch ≤ 30

/-- Body of `simulate_app`. -/
def simulate_appBody (d : AppDraws) (now : Instant) : AppSnapshot :=
  let p95 := clamp (d.u_p95 * if d.r_p95_spike < 0.06 then 3.2 else 1) 10 3000
  let rps := clamp d.u_rps 1 5000
  let err := clamp (d.u_err * if d.r_err_spike < 0.05 then 4.0 else 1) 0 30
  let status := "ok"
  let status := if p95 > 900 ∨ err > 3.5 then "warn" else status
  let status := if p95 > 1400 ∨ err > 8 then "down" else status
  { ts := iso_now now, p95_latency_ms := p95, rps := rps, error_rate_percent := err,
    version := "v1." ++ toString d.n_minor ++ "." ++ toString d.n_patch, status := status }

/-- `simulate_app`: seed `int(now // 3) + 991`. -/
def simulate_app (gen : ℤ → AppDraws) (now : Instant) : AppSnapshot :=
  simulate_appBody (gen (⌊now / 3⌋ + 991)) now

/-! ### Network (`simulate_network`) -/

/-- Snapshot returned by `simulate_network`. -/
structure NetworkSnapshot where
  ts : Instant
  rtt_ms : ℚ
  packet_loss_percent : ℚ
  dns_ms : ℚ
  status : String
deriving DecidableEq

/-- Draws `simulate_network` makes, in source order. -/
structure NetworkDraws where
  u_rtt : ℚ
  r_rtt_spike : ℚ
  u_loss : ℚ
  r_loss_spike : ℚ
  u_dns : ℚ
  r_dns_spike : ℚ

/-- Ranges guaranteed by `uniform` and `random` for the network draws. -/
abbrev NetworkDraws.Valid (d : NetworkDraws) : Prop :=
  (12 ≤ d.u_rtt ∧ d.u_rtt ≤ 180) ∧
  (0 ≤ d.r_rtt_spike ∧ d.r_rtt_spike < 1) ∧
  (0 ≤ d.u_loss ∧ d.u_loss ≤ 1.2) ∧
  (0 ≤ d.r_loss_spike ∧ d.r_loss_spike < 1) ∧
  (8 ≤ d.u_dns ∧ d.u_dns ≤ 90) ∧
  (0 ≤ d.r_dns_spike ∧ d.r_dns_spike < 1)

/-- Body of `simulate_network`. -/
def simulate_networkBody (d : NetworkDraws) (now : Instant) : NetworkSnapshot :=
  let rtt := clamp (d.u_rtt * if d.r_rtt_spike < 0.05 then 3.0 else 1) 1 2000
  let loss := clamp (d.u_loss * if d.r_loss_spike < 0.03 then 5.0 else 1) 0 30
  let dns := clamp (d.u_dns * if d.r_dns_spike < 0.05 then 2.6 else 1) 1 1200
  let status := "ok"
  let status := if rtt > 220 ∨ loss > 1.5 ∨ dns > 140 then "warn" else status
  let status := if rtt > 480 ∨ loss > 5.0 then "down" else status
  { ts := iso_now now, rtt_ms := rtt, packet_loss_percent := loss, dns_ms := dns,
    status := status }

/-- `simulate_network`: seed `int(now // 3) + 42`. -/
def simulate_network (gen : ℤ → NetworkDraws) (now : Instant) : NetworkSnapshot :=
  simulate_networkBody (gen (⌊now / 3⌋ + 42)) now

/-! ### Cloud (`simulate_cloud`) -/

/-- Snapshot returned by `simulate_cloud`. -/
structure CloudSnapshot where
  ts : Instant
  total_count : ℕ
  healthy_count : ℕ
  estimated_cost_per_day_usd : ℚ
  open_incidents : ℕ
  status : String
deriving DecidableEq

/-- Draws `simulate_cloud` makes, in source order; `r_trial i` is the
`rng.random()` draw of the i-th loop iteration. -/
structure CloudDraws where
  n_total : ℕ
  r_trial : ℕ → ℚ
  u_cost_base : ℚ
  u_cost_per : ℚ
  r_incident : ℚ

/-- Ranges guaranteed by `randint`, `random` and `uniform` for the cloud
draws. -/
abbrev CloudDraws.Valid (d : CloudDraws) : Prop :=
  (6 ≤ d.n_total ∧ d.n_total ≤ 14) ∧
  (∀ i, i < 14 → 0 ≤ d.r_trial i ∧ d.r_trial i < 1) ∧
  (120 ≤ d.u_cost_base ∧ d.u_cost_base ≤ 680) ∧
  (10 ≤ d.u_cost_per ∧ d.u_cost_per ≤ 40) ∧
  (0 ≤ d.r_incident ∧ d.r_incident < 1)

/-- The unhealthy counter loop of `simulate_cloud`:
`for _ in range(total): if rng.random() < 0.12: unhealthy += 1`. -/
def cloudUnhealthy (d : CloudDraws) : ℕ :=
  (List.range d.n_total).foldl (fun acc i => if d.r_trial i < 0.12 then acc + 1 else acc) 0

/-- Body of `simulate_cloud`. -/
def simulate_cloudBody (d : CloudDraws) (now : Instant) : CloudSnapshot :=
  let total := d.n_total
  let unhealthy := cloudUnhealthy d
  let healthy := total - unhealthy
  let cost := clamp (d.u_cost_base + (unhealthy : ℚ) * d.u_cost_per) 20 5000
  let incidents := unhealthy + if d.r_incident < 0.08 then 1 else 0
  let status := "ok"
  let status := if unhealthy ≥ 1 ∨ incidents ≥ 1 then "warn" else status
  let status := if unhealthy ≥ 3 ∨ incidents ≥ 4 then "down" else status
  { ts := iso_now now, total_count := total, healthy_count := healthy,
    estimated_cost_per_day_usd := cost, open_incidents := incidents, status := status }

/-- `simulate_cloud`: seed `int(now // 5) + 777`. -/
def simulate_cloud (gen : ℤ → CloudDraws) (now : Instant) : CloudSnapshot :=
  simulate_cloudBody (gen (⌊now / 5⌋ + 777)) now

/-! ### Security (`simulate_security`) -/

/-- One element of the `events` list of a security snapshot:
`{**ev, "ts": ts, "source": "backend"}`. -/
structure SecEventOut where
  id : String
  severity : String
  title : String
  detail : String
  ts : Instant
  source : String
deriving DecidableEq

/-- Snapshot returned by `simulate_security`. -/
structure SecuritySnapshot where
  ts : Instant
  status : String
  events : List SecEventOut
deriving DecidableEq

/-- Draws `simulate_security` makes: the event count, the index stream
consumed by `random.sample`, and the `minutes_ago` stream. -/
structure SecurityDraws where
  n_count : ℕ
  sample_idx : ℕ → ℕ
  n_minutes : ℕ → ℕ

/-- Ranges guaranteed by `randint` for the security draws. -/
abbrev SecurityDraws.Valid (d : SecurityDraws) : Prop :=
  (2 ≤ d.n_count ∧ d.n_count ≤ 5) ∧ ∀ i, i < 5 → d.n_minutes i ≤ 90

/-- Selection without replacement: pick an index into the remaining pool,
remove the picked element, recurse. -/
def sampleAux {α : Type} : ℕ → List α → (ℕ → ℕ) → List α
  | 0, _, _ => []
  | k + 1, pool, f =>
    if h : 0 < pool.length then
      pool.get ⟨f k % pool.length, Nat.mod_lt _ h⟩ ::
        sampleAux k (pool.eraseIdx (f k % pool.length)) f
    else []

/-- Model of `random.sample(population, k)`: `k` distinct elements without
replacement; raises `ValueError` (here `none`) when `k` exceeds the
population size. -/
def sample {α : Type} (population : List α) (k : ℕ) (f : ℕ → ℕ) : Option (List α) :=
  if k ≤ population.length then some (sampleAux k population f) else none

/-- The stamping loop of `simulate_security`: for each chosen event, draw
`minutes_ago` and emit `{**ev, "ts": now - minutes_ago, "source": "backend"}`;
`i` indexes the `minutes_ago` stream. -/
def stamp_events (minutes : ℕ → ℕ) (now : Instant) :
    List SecurityEvent → ℕ → List SecEventOut
  | [], _ => []
  | ev :: rest, i =>
    { id := ev.id, severity := ev.severity, title := ev.title, detail := ev.detail,
      ts := now - 60 * (minutes i : ℚ), source := "backend" } ::
      stamp_events minutes now rest (i + 1)

/-- `sev_rank.get(severity, 0)` from the source. -/
def sev_rank (severity : String) : ℕ :=
  if severity = "info" then 0
  else if severity = "medium" then 1
  else if severity = "high" then 2
  else if severity = "critical" then 3
  else 0

/-- Body of `simulate_security`; `none` models the `ValueError` raised by
`random.sample` when the count exceeds the 4-event catalog. -/
def simulate_securityBody (d : SecurityDraws) (now : Instant) : Option SecuritySnapshot :=
  match sample SECURITY_EVENTS d.n_count d.sample_idx with
  | none => none
  | some chosen =>
    let out := stamp_events d.n_minutes now chosen 0
    let max_rank := out.foldl (fun m e => max m (sev_rank e.severity)) 0
    let status := "ok"
    let status := if max_rank ≥ 1 then "warn" else status
    let status := if max_rank ≥ 3 then "down" else status
    some { ts := iso_now now, status := status, events := out }

/-- `simulate_security`: seed `int(now // 7) + 2024`. -/
def simulate_security (gen : ℤ → SecurityDraws) (now : Instant) : Option SecuritySnapshot :=
  simulate_securityBody (gen (⌊now / 7⌋ + 2024)) now

/-! ### HTTP endpoint handlers -/

/-- Response of `GET /api/services`. -/
structure ServicesResponse where
  ts : Instant
  services : List ServiceDescriptor
deriving DecidableEq

/-- `GET /api/system`. -/
def get_system_status (gen : ℤ → SystemDraws) (now : Instant) : SystemSnapshot :=
  simulate_system gen now

/-- `GET /api/app`. -/
def get_app_status (gen : ℤ → AppDraws) (now : Instant) : AppSnapshot :=
  simulate_app gen now

/-- `GET /api/network`. -/
def get_network_status (gen : ℤ → NetworkDraws) (now : Instant) : NetworkSnapshot :=
  simulate_network gen now

/-- `GET /api/cloud`. -/
def get_cloud_status (gen : ℤ → CloudDraws) (now : Instant) : CloudSnapshot :=
  simulate_cloud gen now

/-- `GET /api/security`. -/
def get_security_events (gen : ℤ → SecurityDraws) (now : Instant) : Option SecuritySnapshot :=
  simulate_security gen now

/-- `GET /api/services`. -/
def list_services (now : Instant) : ServicesResponse :=
  { ts := iso_now now, services := BASE_SERVICES }

/-- `GET /api/services/\x7bservice_id\x7d/metrics`: works for base services
and any id the frontend invents. -/
def get_service_metrics (gen : ℤ → ServiceDraws) (hash : String → ℤ)
    (service_id : String) (now : Instant) : ServiceMetrics :=
  simulate_service_metrics gen hash service_id now

/-! ### Timestamp-free projections

Every snapshot embeds `iso_now()` (the exact request instant), which is the
only part of a snapshot that varies inside a time bucket.  `core` drops the
timestamp fields and keeps everything else. -/

/-- All fields of a service snapshot except `ts`. -/
def ServiceMetrics.core (r : ServiceMetrics) : ℚ × ℚ × ℚ × String :=
  (r.latency_ms, r.error_rate, r.rps, r.status)

/-- All fields of a system snapshot except `ts`. -/
def SystemSnapshot.core (r : SystemSnapshot) : ℚ × ℚ × ℚ × String × String :=
  (r.cpu_percent, r.mem_percent, r.disk_percent, r.uptime_human, r.status)

/-- All fields of an app snapshot except `ts`. -/
def AppSnapshot.core (r : AppSnapshot) : ℚ × ℚ × ℚ × String × String :=
  (r.p95_latency_ms, r.rps, r.error_rate_percent, r.version, r.status)

/-- All fields of a network snapshot except `ts`. -/
def NetworkSnapshot.core (r : NetworkSnapshot) : ℚ × ℚ × ℚ × String :=
  (r.rtt_ms, r.packet_loss_percent, r.dns_ms, r.status)

/-- All fields of a cloud snapshot except `ts`. -/
def CloudSnapshot.core (r : CloudSnapshot) : ℕ × ℕ × ℚ × ℕ × String :=
  (r.total_count, r.healthy_count, r.estimated_cost_per_day_usd, r.open_incidents, r.status)

/-- All fields of an emitted security event except `ts`. -/
def SecEventOut.core (e : SecEventOut) : String × String × String × String × String :=
  (e.id, e.severity, e.title, e.detail, e.source)

/-- All fields of a security snapshot except the timestamps. -/
def SecuritySnapshot.core (r : SecuritySnapshot) :
    String × List (String × String × String × String × String) :=
  (r.status, r.events.map SecEventOut.core)

/-! ### Concrete generators used to instantiate hypotheses -/

/-- In-range service draws. -/
def constServiceDraws : ServiceDraws :=
  { u_latency := 100, u_error := 1, u_rps := 50, r_spike := 1/2,
    u_latency_mult := 3, u_error_mult := 3 }

/-- A constant in-range service generator. -/
def constServiceGen : ℤ → ServiceDraws := fun _ => constServiceDraws

/-- In-range system draws. -/
def constSystemDraws : SystemDraws :=
  { u_cpu := 50, r_cpu_spike := 1/2, u_mem := 50, u_disk := 50, u_uptime := 100 }

/-- A constant in-range system generator. -/
def constSystemGen : ℤ → SystemDraws := fun _ => constSystemDraws

/-- In-range app draws. -/
def constAppDraws : AppDraws :=
  { u_p95 := 100, r_p95_spike := 1/2, u_rps := 100, u_err := 1, r_err_spike := 1/2,
    n_minor := 3, n_patch := 4 }

/-- A constant in-range app generator. -/
def constAppGen : ℤ → AppDraws := fun _ => constAppDraws

/-- In-range network draws. -/
def constNetworkDraws : NetworkDraws :=
  { u_rtt := 50, r_rtt_spike := 1/2, u_loss := 1, r_loss_spike := 1/2,
    u_dns := 20, r_dns_spike := 1/2 }

/-- A constant in-range network generator. -/
def constNetworkGen : ℤ → NetworkDraws := fun _ => constNetworkDraws

/-- In-range cloud draws. -/
def constCloudDraws : CloudDraws :=
  { n_total := 10, r_trial := fun _ => 1/2, u_cost_base := 200, u_cost_per := 20,
    r_incident := 1/2 }

/-- A constant in-range cloud generator. -/
def constCloudGen : ℤ → CloudDraws := fun _ => constCloudDraws

/-- In-range security draws (count 3). -/
def constSecurityDraws : SecurityDraws :=
  { n_count := 3, sample_idx := fun _ => 0, n_minutes := fun _ => 10 }

/-- A constant in-range security generator. -/
def constSecurityGen : ℤ → SecurityDraws := fun _ => constSecurityDraws

/-- Security draws with `count = 5`, an outcome `randint(2, 5)` permits. -/
def secFailDraws : SecurityDraws :=
  { n_count := 5, sample_idx := fun _ => 0, n_minutes := fun _ => 0 }

/-- A hash stand-in for witnesses. -/
def zeroHash : String → ℤ := fun _ => 0

/-! ### Helper lemmas -/

/-- `clamp` lands in `[lo, hi]` whenever `lo ≤ hi`. -/
lemma clamp_mem (v : ℚ) {lo hi : ℚ} (h : lo ≤ hi) :
    lo ≤ clamp v lo hi ∧ clamp v lo hi ≤ hi :=
  ⟨le_max_left _ _, max_le h (min_le_left _ _)⟩

/-- `clamp` is the identity on values already in `[lo, hi]`. -/
lemma clamp_eq_self {v lo hi : ℚ} (h₁ : lo ≤ v) (h₂ : v ≤ hi) :
    clamp v lo hi = v := by
  unfold clamp
  rw [min_eq_right h₂, max_eq_right h₁]

/-- `pick_status` only ever returns one of the three status strings. -/
lemma pick_status_cases (score : ℚ) :
    pick_status score = "ok" ∨ pick_status score = "warn" ∨ pick_status score = "down" := by
  unfold pick_status
  split_ifs <;> simp

/-- The stamping loop keeps the catalog fields and the source tag unchanged
whatever the instant is. -/
lemma stamp_events_core (m : ℕ → ℕ) (t₁ t₂ : Instant) :
    ∀ (l : List SecurityEvent) (i : ℕ),
      (stamp_events m t₁ l i).map SecEventOut.core =
        (stamp_events m t₂ l i).map SecEventOut.core := by
  intro l
  induction l with
  | nil => intro i; rfl
  | cons ev rest ih =>
    intro i
    simp only [stamp_events, List.map_cons, ih (i + 1)]
    rfl

/-- The severity fold over stamped events does not depend on the instant. -/
lemma stamp_events_rank (m : ℕ → ℕ) (t₁ t₂ : Instant) :
    ∀ (l : List SecurityEvent) (i : ℕ) (a : ℕ),
      ((stamp_events m t₁ l i).foldl (fun b e => max b (sev_rank e.severity)) a) =
        ((stamp_events m t₂ l i).foldl (fun b e => max b (sev_rank e.severity)) a) := by
  intro l
  induction l with
  | nil => intro i a; rfl
  | cons ev rest ih =>
    intro i a
    simp only [stamp_events, List.foldl_cons]
    exact ih (i + 1) _

/-- The counting fold of the cloud loop equals the length of the filtered
list. -/
lemma foldl_count_eq {α : Type} (p : α → Prop) [DecidablePred p] :
    ∀ (l : List α) (a : ℕ),
      l.foldl (fun acc x => if p x then acc + 1 else acc) a =
        a + (l.filter (fun x => decide (p x))).length := by
  intro l
  induction l with
  | nil => intro a; simp
  | cons x rest ih =>
    intro a
    simp only [List.foldl_cons, List.filter_cons]
    by_cases hx : p x
    · simp only [hx, if_pos, decide_eq_true_eq, hx, ite_true, List.length_cons, ih]
      omega
    · simp only [hx, if_neg, decide_eq_true_eq, ite_false, ih]

/-! ### Claim theorems -/

/-- Claim C1: the claim states that the security sampling step always
succeeds.  It does not: `randint(2, 5)` may return 5, and
`random.sample(SECURITY_EVENTS, k=5)` over the 4-event catalog raises
`ValueError`.  The draws below are within the ranges the generator
guarantees, yet the simulator fails (returns `none`). -/
theorem C1_security_sample_crashes :
    SecurityDraws.Valid secFailDraws ∧
    simulate_security (fun _ => secFailDraws) 0 = none := by
  constructor
  · exact ⟨⟨by decide, by decide⟩, fun i _ => Nat.zero_le _⟩
  · rfl

/-- A syntactically valid service metric snapshot: each numeric field in
its clamp range and a three-valued status. -/
def ServiceMetrics.WellFormed (r : ServiceMetrics) : Prop :=
  (5 ≤ r.latency_ms ∧ r.latency_ms ≤ 2000) ∧
  (0 ≤ r.error_rate ∧ r.error_rate ≤ 25) ∧
  (0.1 ≤ r.rps ∧ r.rps ≤ 2000) ∧
  (r.status = "ok" ∨ r.status = "warn" ∨ r.status = "down")

/-- Claim C3: `GET /api/services/\x7bservice_id\x7d/metrics` produces a
syntactically valid service metric snapshot for every string id, known or
unknown, with no error or not-found path, whatever the generator draws. -/
theorem C3_any_service_id_wellformed (gen : ℤ → ServiceDraws) (hash : String → ℤ)
    (service_id : String) (now : Instant) :
    (get_service_metrics gen hash service_id now).WellFormed := by
  dsimp only [get_service_metrics, simulate_service_metrics, serviceMetricsBody,
    ServiceMetrics.WellFormed]
  exact ⟨clamp_mem _ (by norm_num), clamp_mem _ (by norm_num),
    clamp_mem _ (by norm_num), pick_status_cases _⟩

/-- Claim C4: every clamped numeric field of every snapshot lies within
its declared clamp range, for all generators and instants: service latency
in `[5, 2000]`, error in `[0, 25]`, rps in `[0.1, 2000]`; system cpu, mem,
disk in `[1, 100]`; app p95 in `[10, 3000]`, rps in `[1, 5000]`, err in
`[0, 30]`; network rtt in `[1, 2000]`, loss in `[0, 30]`, dns in
`[1, 1200]`; cloud cost in `[20, 5000]`. -/
theorem C4_all_fields_clamped :
    (∀ (gen : ℤ → ServiceDraws) (hash : String → ℤ) (sid : String) (now : Instant),
      (5 ≤ (simulate_service_metrics gen hash sid now).latency_ms ∧
        (simulate_service_metrics gen hash sid now).latency_ms ≤ 2000) ∧
      (0 ≤ (simulate_service_metrics gen hash sid now).error_rate ∧
        (simulate_service_metrics gen hash sid now).error_rate ≤ 25) ∧
      (0.1 ≤ (simulate_service_metrics gen hash sid now).rps ∧
        (simulate_service_metrics gen hash sid now).rps ≤ 2000)) ∧
    (∀ (gen : ℤ → SystemDraws) (now : Instant),
      (1 ≤ (simulate_system gen now).cpu_percent ∧
        (simulate_system gen now).cpu_percent ≤ 100) ∧
      (1 ≤ (simulate_system gen now).mem_percent ∧
        (simulate_system gen now).mem_percent ≤ 100) ∧
      (1 ≤ (simulate_system gen now).disk_percent ∧
        (simulate_system gen now).disk_percent ≤ 100)) ∧
    (∀ (gen : ℤ → AppDraws) (now : Instant),
      (10 ≤ (simulate_app gen now).p95_latency_ms ∧
        (simulate_app gen now).p95_latency_ms ≤ 3000) ∧
      (1 ≤ (simulate_app gen now).rps ∧ (simulate_app gen now).rps ≤ 5000) ∧
      (0 ≤ (simulate_app gen now).error_rate_percent ∧
        (simulate_app gen now).error_rate_percent ≤ 30)) ∧
    (∀ (gen : ℤ → NetworkDraws) (now : Instant),
      (1 ≤ (simulate_network gen now).rtt_ms ∧ (simulate_network gen now).rtt_ms ≤ 2000) ∧
      (0 ≤ (simulate_network gen now).packet_loss_percent ∧
        (simulate_network gen now).packet_loss_percent ≤ 30) ∧
      (1 ≤ (simulate_network gen now).dns_ms ∧ (simulate_network gen now).dns_ms ≤ 1200)) ∧
    (∀ (gen : ℤ → CloudDraws) (now : Instant),
      20 ≤ (simulate_cloud gen now).estimated_cost_per_day_usd ∧
        (simulate_cloud gen now).estimated_cost_per_day_usd ≤ 5000) := by
  refine ⟨?_, ?_, ?_, ?_, ?_⟩
  · intro gen hash sid now
    dsimp only [simulate_service_metrics, serviceMetricsBody]
    exact ⟨clamp_mem _ (by norm_num), clamp_mem _ (by norm_num), clamp_mem _ (by norm_num)⟩
  · intro gen now
    dsimp only [simulate_system, simulate_systemBody]
    exact ⟨clamp_mem _ (by norm_num), clamp_mem _ (by norm_num), clamp_mem _ (by norm_num)⟩
  · intro gen now
    dsimp only [simulate_app, simulate_appBody]
    exact ⟨clamp_mem _ (by norm_num), clamp_mem _ (by norm_num), clamp_mem _ (by norm_num)⟩
  · intro gen now
    dsimp only [simulate_network, simulate_networkBody]
    exact ⟨clamp_mem _ (by norm_num), clamp_mem _ (by norm_num), clamp_mem _ (by norm_num)⟩
  · intro gen now
    dsimp only [simulate_cloud, simulate_cloudBody]
    exact clamp_mem _ (by norm_num)

/-- The system status rule as the spec words it: down if cpu over 96 or
mem over 96; else warn if cpu over 90 or mem over 90 or disk over 92;
else ok, down taking precedence. -/
def system_status_spec (cpu mem disk : ℚ) : String :=
  if cpu > 96 ∨ mem > 96 then "down"
  else if cpu > 90 ∨ mem > 90 ∨ disk > 92 then "warn"
  else "ok"

/-- Claim C5: the system snapshot status is a pure function of its own
cpu, mem and disk fields, given by the documented thresholds with down
over warn; concretely cpu 97, mem 50 gives down for any disk, cpu 91,
mem 50, disk 50 gives warn, and 50, 50, 50 gives ok. -/
theorem C5_system_status_pure :
    (∀ (gen : ℤ → SystemDraws) (now : Instant),
      (simulate_system gen now).status =
        system_status_spec (simulate_system gen now).cpu_percent
          (simulate_system gen now).mem_percent (simulate_system gen now).disk_percent) ∧
    (∀ disk : ℚ, system_status_spec 97 50 disk = "down") ∧
    system_status_spec 91 50 50 = "warn" ∧
    system_status_spec 50 50 50 = "ok" := by
  refine ⟨?_, ?_, ?_, ?_⟩
  · intro gen now
    rfl
  · intro disk
    rw [system_status_spec, if_pos (Or.inl (by norm_num))]
  · rw [system_status_spec, if_neg (by norm_num), if_pos (Or.inl (by norm_num))]
  · rw [system_status_spec, if_neg (by norm_num), if_neg (by norm_num)]

/-- Claim C8: `GET /api/services` returns exactly the 5 built-in
descriptors with the same ids on every call; the catalog is a fixed
constant, so no call can change it. -/
theorem C8_services_catalog_stable :
    (∀ now : Instant, (list_services now).services = BASE_SERVICES) ∧
    BASE_SERVICES.length = 5 ∧
    BASE_SERVICES.map ServiceDescriptor.id =
      ["svc-auth", "svc-orders", "svc-postgres", "svc-redis", "svc-gateway"] ∧
    (∀ t₁ t₂ : Instant, (list_services t₁).services = (list_services t₂).services) :=
  ⟨fun _ => rfl, rfl, rfl, fun _ _ => rfl⟩

/-- The per-service generation rule exactly as the spec words it:
uniform bases, a 0.08-probability spike multiplying latency and error,
clamps, the derived score, and the score thresholds. -/
def service_metrics_spec (d : ServiceDraws) (now : Instant) : ServiceMetrics :=
  let latency :=
    clamp (if d.r_spike < 0.08 then d.u_latency * d.u_latency_mult else d.u_latency) 5 2000
  let error :=
    clamp (if d.r_spike < 0.08 then d.u_error * d.u_error_mult else d.u_error) 0 25
  let rps := clamp d.u_rps 0.1 2000
  let score := clamp (latency / 900 * 0.6 + error / 10 * 0.4) 0 1.2
  { ts := now, latency_ms := latency, error_rate := error, rps := rps,
    status := if score > 0.85 then "down" else if score > 0.55 then "warn" else "ok" }

/-- Claim C6: `simulate_service_metrics` computes exactly the documented
rule: spiked-then-clamped latency, error and rps, the derived score
`clamp(latency/900*0.6 + error/10*0.4, 0, 1.2)`, and the score
thresholds 0.85 and 0.55 for down and warn. -/
theorem C6_service_metrics_formula (gen : ℤ → ServiceDraws) (hash : String → ℤ)
    (service_id : String) (now : Instant) :
    simulate_service_metrics gen hash service_id now =
      service_metrics_spec (gen (stable_seed hash service_id + ⌊now / 5⌋)) now := rfl

/-- The cloud generation rule exactly as the spec words it: the unhealthy
trials counted as a filtered set, then healthy, cost, incidents and the
down-over-warn status rule. -/
def cloud_spec (d : CloudDraws) (now : Instant) : CloudSnapshot :=
  let total := d.n_total
  let unhealthy := ((List.range total).filter (fun i => decide (d.r_trial i < 0.12))).length
  let healthy := total - unhealthy
  let cost := clamp (d.u_cost_base + (unhealthy : ℚ) * d.u_cost_per) 20 5000
  let incidents := unhealthy + if d.r_incident < 0.08 then 1 else 0
  { ts := now, total_count := total, healthy_count := healthy,
    estimated_cost_per_day_usd := cost, open_incidents := incidents,
    status := if unhealthy ≥ 3 ∨ incidents ≥ 4 then "down"
      else if unhealthy ≥ 1 ∨ incidents ≥ 1 then "warn" else "ok" }

/-- Claim C7: `simulate_cloud` computes exactly the documented rule:
`total = randint(6,14)` trials each unhealthy with probability 0.12,
`healthy = total - unhealthy`, the clamped cost, incidents with the
0.08 extra, and down if unhealthy at least 3 or incidents at least 4,
else warn if either is at least 1, else ok. -/
theorem C7_cloud_formula (gen : ℤ → CloudDraws) (now : Instant) :
    simulate_cloud gen now = cloud_spec (gen (⌊now / 5⌋ + 777)) now := by
  have hcount : cloudUnhealthy (gen (⌊now / 5⌋ + 777)) =
      ((List.range (gen (⌊now / 5⌋ + 777)).n_total).filter
        (fun i => decide ((gen (⌊now / 5⌋ + 777)).r_trial i < 0.12))).length := by
    rw [cloudUnhealthy, foldl_count_eq]
    simp
  dsimp only [simulate_cloud, simulate_cloudBody, cloud_spec]
  rw [hcount]
  rfl

/-- Claim C9: under in-range draws, system mem stays in `[30, 88]` and
disk in `[40, 93]` (tighter than the `[1, 100]` clamp), so the mem
conditions of the warn and down rules never fire and a down status can
only come from cpu over 96. -/
theorem C9_system_mem_disk_tight (gen : ℤ → SystemDraws) (now : Instant)
    (hgen : ∀ s, (gen s).Valid) :
    (30 ≤ (simulate_system gen now).mem_percent ∧
      (simulate_system gen now).mem_percent ≤ 88) ∧
    (40 ≤ (simulate_system gen now).disk_percent ∧
      (simulate_system gen now).disk_percent ≤ 93) ∧
    ((simulate_system gen now).status = "down" →
      (simulate_system gen now).cpu_percent > 96) := by
  obtain ⟨hcpu, hspike, hmem, hdisk, hup⟩ := hgen ⌊now / 3⌋
  dsimp only [simulate_system, simulate_systemBody]
  rw [clamp_eq_self (by linarith [hmem.1]) (by linarith [hmem.2]),
    clamp_eq_self (by linarith [hdisk.1]) (by linarith [hdisk.2])]
  refine ⟨hmem, hdisk, ?_⟩
  intro hst
  by_contra hc
  push_neg at hc
  rw [if_neg] at hst
  · split_ifs at hst <;> exact absurd hst (by decide)
  · rintro (h | h)
    · exact absurd h (not_lt.mpr hc)
    · linarith [hmem.2]

/-- Claim C10: under in-range draws, the unclamped cloud fields are
bounded: total in `[6, 14]`, healthy is total minus the unhealthy count
and at most total, and open incidents is at most total plus 1, hence at
most 15. -/
theorem C10_cloud_counts_bounded (gen : ℤ → CloudDraws) (now : Instant)
    (hgen : ∀ s, (gen s).Valid) :
    (6 ≤ (simulate_cloud gen now).total_count ∧
      (simulate_cloud gen now).total_count ≤ 14) ∧
    (simulate_cloud gen now).healthy_count =
      (simulate_cloud gen now).total_count - cloudUnhealthy (gen (⌊now / 5⌋ + 777)) ∧
    cloudUnhealthy (gen (⌊now / 5⌋ + 777)) ≤ (simulate_cloud gen now).total_count ∧
    (simulate_cloud gen now).healthy_count ≤ (simulate_cloud gen now).total_count ∧
    (simulate_cloud gen now).open_incidents ≤ (simulate_cloud gen now).total_count + 1 ∧
    (simulate_cloud gen now).open_incidents ≤ 15 := by
  obtain ⟨htot, htrial, hbase, hper, hinc⟩ := hgen (⌊now / 5⌋ + 777)
  have hu : cloudUnhealthy (gen (⌊now / 5⌋ + 777)) ≤ (gen (⌊now / 5⌋ + 777)).n_total := by
    rw [cloudUnhealthy, foldl_count_eq]
    simpa using List.length_filter_le _ (List.range (gen (⌊now / 5⌋ + 777)).n_total)
  have hind : (if (gen (⌊now / 5⌋ + 777)).r_incident < 0.08 then 1 else 0) ≤ 1 := by
    split_ifs <;> omega
  dsimp only [simulate_cloud, simulate_cloudBody]
  refine ⟨htot, rfl, hu, Nat.sub_le _ _, ?_, ?_⟩
  · omega
  · omega

/-- Witness for claim C9 at the constant in-range generator and instant
zero. -/
theorem C9_system_mem_disk_tight_witness :
    (30 ≤ (simulate_system constSystemGen 0).mem_percent ∧
      (simulate_system constSystemGen 0).mem_percent ≤ 88) ∧
    (40 ≤ (simulate_system constSystemGen 0).disk_percent ∧
      (simulate_system constSystemGen 0).disk_percent ≤ 93) ∧
    ((simulate_system constSystemGen 0).status = "down" →
      (simulate_system constSystemGen 0).cpu_percent > 96) :=
  C9_system_mem_disk_tight constSystemGen 0
    (fun _ => by
      refine ⟨⟨?_, ?_⟩, ⟨?_, ?_⟩, ⟨?_, ?_⟩, ⟨?_, ?_⟩, ⟨?_, ?_⟩⟩ <;>
        norm_num [constSystemGen, constSystemDraws])

/-- Witness for claim C10 at the constant in-range generator and instant
zero. -/
theorem C10_cloud_counts_bounded_witness :
    (6 ≤ (simulate_cloud constCloudGen 0).total_count ∧
      (simulate_cloud constCloudGen 0).total_count ≤ 14) ∧
    (simulate_cloud constCloudGen 0).healthy_count =
      (simulate_cloud constCloudGen 0).total_count -
        cloudUnhealthy (constCloudGen (⌊(0 : ℚ) / 5⌋ + 777)) ∧
    cloudUnhealthy (constCloudGen (⌊(0 : ℚ) / 5⌋ + 777)) ≤
      (simulate_cloud constCloudGen 0).total_count ∧
    (simulate_cloud constCloudGen 0).healthy_count ≤
      (simulate_cloud constCloudGen 0).total_count ∧
    (simulate_cloud constCloudGen 0).open_incidents ≤
      (simulate_cloud constCloudGen 0).total_count + 1 ∧
    (simulate_cloud constCloudGen 0).open_incidents ≤ 15 :=
  C10_cloud_counts_bounded constCloudGen 0
    (fun _ => by
      refine ⟨⟨?_, ?_⟩, fun i _ => ⟨?_, ?_⟩, ⟨?_, ?_⟩, ⟨?_, ?_⟩, ⟨?_, ?_⟩⟩ <;>
        norm_num [constCloudGen, constCloudDraws])

/-- Claim C2 counterexample: two requests in the same service time bucket
(instants 0 and 1, both in bucket 0) do not return identical records,
because every snapshot embeds `iso_now()`, the exact request instant, as
its `ts` field. -/
theorem C2_counterexample :
    ⌊(0 : ℚ) / 5⌋ = ⌊(1 : ℚ) / 5⌋ ∧
    simulate_service_metrics constServiceGen zeroHash "svc-auth" 0 ≠
      simulate_service_metrics constServiceGen zeroHash "svc-auth" 1 := by
  constructor
  · norm_num
  · intro h
    have hts := congrArg ServiceMetrics.ts h
    simp only [simulate_service_metrics, serviceMetricsBody, iso_now] at hts
    norm_num at hts

/-- Claim C2 as amended: within one time bucket (the bucket sizes and
offsets of the source: service 5 s with `stable_seed` added, system 3 s,
app 3 s + 991, network 3 s + 42, cloud 5 s + 777, security 7 s + 2024),
two invocations agree on every field except the timestamps: the `core`
projections, which drop only `ts`, are equal for any generator. -/
theorem C2_core_stable_within_bucket :
    (∀ (gen : ℤ → ServiceDraws) (hash : String → ℤ) (sid : String) (t₁ t₂ : Instant),
      ⌊t₁ / 5⌋ = ⌊t₂ / 5⌋ →
      (simulate_service_metrics gen hash sid t₁).core =
        (simulate_service_metrics gen hash sid t₂).core) ∧
    (∀ (gen : ℤ → SystemDraws) (t₁ t₂ : Instant), ⌊t₁ / 3⌋ = ⌊t₂ / 3⌋ →
      (simulate_system gen t₁).core = (simulate_system gen t₂).core) ∧
    (∀ (gen : ℤ → AppDraws) (t₁ t₂ : Instant), ⌊t₁ / 3⌋ = ⌊t₂ / 3⌋ →
      (simulate_app gen t₁).core = (simulate_app gen t₂).core) ∧
    (∀ (gen : ℤ → NetworkDraws) (t₁ t₂ : Instant), ⌊t₁ / 3⌋ = ⌊t₂ / 3⌋ →
      (simulate_network gen t₁).core = (simulate_network gen t₂).core) ∧
    (∀ (gen : ℤ → CloudDraws) (t₁ t₂ : Instant), ⌊t₁ / 5⌋ = ⌊t₂ / 5⌋ →
      (simulate_cloud gen t₁).core = (simulate_cloud gen t₂).core) ∧
    (∀ (gen : ℤ → SecurityDraws) (t₁ t₂ : Instant), ⌊t₁ / 7⌋ = ⌊t₂ / 7⌋ →
      (simulate_security gen t₁).map SecuritySnapshot.core =
        (simulate_security gen t₂).map SecuritySnapshot.core) := by
  refine ⟨?_, ?_, ?_, ?_, ?_, ?_⟩
  · intro gen hash sid t₁ t₂ h
    unfold simulate_service_metrics
    rw [h]
    rfl
  · intro gen t₁ t₂ h
    unfold simulate_system
    rw [h]
    rfl
  · intro gen t₁ t₂ h
    unfold simulate_app
    rw [h]
    rfl
  · intro gen t₁ t₂ h
    unfold simulate_network
    rw [h]
    rfl
  · intro gen t₁ t₂ h
    unfold simulate_cloud
    rw [h]
    rfl
  · intro gen t₁ t₂ h
    unfold simulate_security
    rw [h]
    unfold simulate_securityBody
    cases hsample : sample SECURITY_EVENTS (gen (⌊t₂ / 7⌋ + 2024)).n_count
        (gen (⌊t₂ / 7⌋ + 2024)).sample_idx with
    | none => rfl
    | some chosen =>
      simp only [Option.map_some', SecuritySnapshot.core,
        stamp_events_core (gen (⌊t₂ / 7⌋ + 2024)).n_minutes t₁ t₂ chosen 0,
        stamp_events_rank (gen (⌊t₂ / 7⌋ + 2024)).n_minutes t₁ t₂ chosen 0 0]

/-- Witness for the amended claim C2: instants 0 and 1 share every bucket,
and the timestamp-free cores agree on all six domains at the constant
generators. -/
theorem C2_core_stable_within_bucket_witness :
    (simulate_service_metrics constServiceGen zeroHash "svc-auth" 0).core =
      (simulate_service_metrics constServiceGen zeroHash "svc-auth" 1).core ∧
    (simulate_system constSystemGen 0).core = (simulate_system constSystemGen 1).core ∧
    (simulate_app constAppGen 0).core = (simulate_app constAppGen 1).core ∧
    (simulate_network constNetworkGen 0).core = (simulate_network constNetworkGen 1).core ∧
    (simulate_cloud constCloudGen 0).core = (simulate_cloud constCloudGen 1).core ∧
    (simulate_security constSecurityGen 0).map SecuritySnapshot.core =
      (simulate_security constSecurityGen 1).map SecuritySnapshot.core :=
  ⟨C2_core_stable_within_bucket.1 constServiceGen zeroHash "svc-auth" 0 1 (by norm_num),
    C2_core_stable_within_bucket.2.1 constSystemGen 0 1 (by norm_num),
    C2_core_stable_within_bucket.2.2.1 constAppGen 0 1 (by norm_num),
    C2_core_stable_within_bucket.2.2.2.1 constNetworkGen 0 1 (by norm_num),
    C2_core_stable_within_bucket.2.2.2.2.1 constCloudGen 0 1 (by norm_num),
    C2_core_stable_within_bucket.2.2.2.2.2 constSecurityGen 0 1 (by norm_num)⟩

end APM
